import Mathlib

/-!
Verification of the statistics engine in scripts/analyze_temporal_kgs.py.

The Python code is shallowly embedded as follows.

* Python `Counter` / `dict` frequency maps become functions into `Nat`
  (Python dict equality is extensional, so pointwise-equal maps model
  equal dicts; the program never stores zero or negative counts).
* Python `set` values become functions into `Bool` (set equality is
  extensional).
* `datetime.date` values become `PyDate` records compared
  lexicographically on (year, month, day), exactly as Python compares
  dates.
* `datetime.strptime(s, "%Y-%m-%d")` is modelled by `strptimeYMD`,
  following CPython's `_strptime` regular expressions: `%Y` matches
  exactly four digits, `%m` matches `1[0-2]|0[1-9]|[1-9]`, `%d` matches
  `3[01]|[12]\d|0[1-9]|[1-9]`, the whole string must be consumed, and
  the resulting calendar date must be valid (leap years included,
  year at least 1).
* `int(token)` on a stripped token is modelled by `pyInt` (optional
  sign followed by decimal digits).
* The in-place mutation of `merge_stats(acc, other)` is modelled by a
  function returning the updated accumulator.
* `Counter.most_common(n)` (sort by count, descending, stable in
  first-insertion order, take n) is modelled by `most_common` over the
  dict's entry list in insertion order.
* The filesystem seen by `analyze` is modelled by an optional listing
  of the base directory (`none` models a missing directory, making
  `os.listdir` raise `FileNotFoundError`) together with an oracle from
  dataset names to their files' contents.
-/

/-- Dataset conventions returned by `guess_dataset_type`
(source lines 41-49). -/
inductive DatasetType where
  | icews
  | wikidata
  | yago
  | generic
deriving DecidableEq

/-- A calendar date as produced by `datetime.strptime(...).date()`. -/
structure PyDate where
  year : Nat
  month : Nat
  day : Nat
deriving DecidableEq

/-- Python date comparison: lexicographic on (year, month, day). -/
def pyDateLtb (a b : PyDate) : Bool :=
  decide (a.year < b.year ∨ (a.year = b.year ∧
    (a.month < b.month ∨ (a.month = b.month ∧ a.day < b.day))))

/-- Python `int` comparison as a Bool, used by the min/max updates. -/
def intLtb (a b : Int) : Bool :=
  decide (a < b)

/-- The `Stats` dataclass (source lines 20-38): running statistics for
one knowledge-graph split.  Frequency maps are total functions into
`Nat`, sets are membership functions into `Bool`. -/
@[ext]
structure Stats where
  triples : Nat
  subjects : String → Bool
  objects : String → Bool
  relations : String → Bool
  subject_counter : String → Nat
  object_counter : String → Nat
  entity_counter : String → Nat
  relation_counter : String → Nat
  year_counter : Int → Nat
  temporal_marker_counter : String → Nat
  temporal_records : Nat
  min_date : Option PyDate
  max_date : Option PyDate
  min_year : Option Int
  max_year : Option Int

/-- `init_stats()` (source lines 52-53): the empty statistics value. -/
def init_stats : Stats where
  triples := 0
  subjects := fun _ => false
  objects := fun _ => false
  relations := fun _ => false
  subject_counter := fun _ => 0
  object_counter := fun _ => 0
  entity_counter := fun _ => 0
  relation_counter := fun _ => 0
  year_counter := fun _ => 0
  temporal_marker_counter := fun _ => 0
  temporal_records := 0
  min_date := none
  max_date := none
  min_year := none
  max_year := none

/-- `counter[k] += 1` on a frequency map. -/
def bump {α : Type} [DecidableEq α] (c : α → Nat) (k : α) : α → Nat :=
  fun x => if x = k then c x + 1 else c x

/-- `s.add(k)` on a set. -/
def setAdd (s : String → Bool) (k : String) : String → Bool :=
  fun x => if x = k then true else s x

/-- The code's min-side update `if acc is None or other < acc` for two
present values: the incoming value `o` replaces the accumulated `a`
exactly when it is strictly smaller. -/
def keepMin {α : Type} (lt : α → α → Bool) (a o : α) : α :=
  if lt o a then o else a

/-- The code's max-side update for two present values: the incoming
value `o` replaces the accumulated `a` exactly when it is strictly
larger. -/
def keepMax {α : Type} (lt : α → α → Bool) (a o : α) : α :=
  if lt a o then o else a

/-- The extrema block of `merge_stats` (source lines 69-81), for one
(min, max) pair of optional values.  Arguments are the accumulator's
pair `(amin, amax)` followed by the other side's pair `(omin, omax)`.
Faithful to the source: the whole block, including the max update, is
guarded by `other.min ... is not None`; when the accumulator's max is
absent the other side's max (possibly absent) is adopted. -/
def mergeExtrema {α : Type} (lt : α → α → Bool)
    (amin amax omin omax : Option α) : Option α × Option α :=
  match omin with
  | none => (amin, amax)
  | some o =>
    ((match amin with
      | none => some o
      | some a => some (keepMin lt a o)),
     (match amax with
      | none => omax
      | some a =>
        match omax with
        | none => some a
        | some ob => some (keepMax lt a ob)))

/-- `merge_stats(acc, other)` (source lines 56-81), as a function
returning the mutated accumulator. -/
def merge_stats (acc other : Stats) : Stats where
  triples := acc.triples + other.triples
  subjects := fun k => acc.subjects k || other.subjects k
  objects := fun k => acc.objects k || other.objects k
  relations := fun k => acc.relations k || other.relations k
  subject_counter := fun k => acc.subject_counter k + other.subject_counter k
  object_counter := fun k => acc.object_counter k + other.object_counter k
  entity_counter := fun k => acc.entity_counter k + other.entity_counter k
  relation_counter := fun k => acc.relation_counter k + other.relation_counter k
  year_counter := fun k => acc.year_counter k + other.year_counter k
  temporal_marker_counter :=
    fun k => acc.temporal_marker_counter k + other.temporal_marker_counter k
  temporal_records := acc.temporal_records + other.temporal_records
  min_date :=
    (mergeExtrema pyDateLtb acc.min_date acc.max_date other.min_date other.max_date).1
  max_date :=
    (mergeExtrema pyDateLtb acc.min_date acc.max_date other.min_date other.max_date).2
  min_year :=
    (mergeExtrema intLtb acc.min_year acc.max_year other.min_year other.max_year).1
  max_year :=
    (mergeExtrema intLtb acc.min_year acc.max_year other.min_year other.max_year).2

/-- Numeric value of a decimal digit character. -/
def digitVal (c : Char) : Nat :=
  c.toNat - 48

/-- Value of a list of decimal digit characters, most significant
first, as computed by Python `int` on a digit string. -/
def digitsToNat (l : List Char) : Nat :=
  l.foldl (fun a c => a * 10 + digitVal c) 0

/-- Python `str.strip(chars)`: remove leading and trailing characters
belonging to `cs`. -/
def pyStrip (cs : List Char) (s : String) : String :=
  ⟨((s.toList.dropWhile (fun c => cs.contains c)).reverse.dropWhile
      (fun c => cs.contains c)).reverse⟩

/-- Python `str.strip()` with no argument: remove leading and trailing
whitespace (space, tab, carriage return, newline). -/
def pyTrim (s : String) : String :=
  ⟨((s.toList.dropWhile Char.isWhitespace).reverse.dropWhile
      Char.isWhitespace).reverse⟩

/-- Python `str.split(sep)` for a one-character separator, over the
character list: every occurrence of the separator starts a new field,
and empty fields are kept (`"".split(t)` is `[""]`). -/
def splitOnCharList (sep : Char) : List Char → List (List Char)
  | [] => [[]]
  | c :: rest =>
    match splitOnCharList sep rest with
    | [] => if c == sep then [[], []] else [[c]]
    | f :: fs => if c == sep then [] :: f :: fs else (c :: f) :: fs

/-- Python `line.split(t)` on the tab character. -/
def pySplitTab (s : String) : List String :=
  (splitOnCharList '\t' s.toList).map (fun l => ⟨l⟩)

/-- Python `str.lower()` (ASCII, which is all these datasets use). -/
def pyLower (s : String) : String :=
  ⟨s.toList.map Char.toLower⟩

/-- Python `int(token)` on an already-stripped token: an optional sign
followed by at least one decimal digit (the underscore grouping and
non-ASCII digits Python also accepts never occur in these datasets). -/
def pyInt (s : String) : Option Int :=
  match s.toList with
  | [] => none
  | '-' :: rest =>
    if rest ≠ [] ∧ rest.all Char.isDigit then some (-(digitsToNat rest : Int)) else none
  | '+' :: rest =>
    if rest ≠ [] ∧ rest.all Char.isDigit then some ((digitsToNat rest : Int)) else none
  | l =>
    if l.all Char.isDigit then some ((digitsToNat l : Int)) else none

/-- The `%m` / `%d` patterns of CPython strptime: one or two digits.
A two-digit reading is accepted when its value lies in `1..bound`
(bound 12 for months: `1[0-2]|0[1-9]`; bound 31 for days:
`3[01]|[12]\d|0[1-9]`); otherwise a single nonzero digit is read and
the second character is left in the stream, where the next pattern
character will fail to match. -/
def read2or1 (bound : Nat) : List Char → Option (Nat × List Char)
  | [] => none
  | c1 :: rest =>
    if c1.isDigit then
      match rest with
      | c2 :: rest2 =>
        if c2.isDigit then
          if 1 ≤ 10 * digitVal c1 + digitVal c2 ∧ 10 * digitVal c1 + digitVal c2 ≤ bound then
            some (10 * digitVal c1 + digitVal c2, rest2)
          else if 1 ≤ digitVal c1 then some (digitVal c1, c2 :: rest2)
          else none
        else if 1 ≤ digitVal c1 then some (digitVal c1, c2 :: rest2)
        else none
      | [] => if 1 ≤ digitVal c1 then some (digitVal c1, []) else none
    else none

/-- Gregorian leap-year rule used by `datetime`. -/
def isLeap (y : Nat) : Bool :=
  y % 4 == 0 && (y % 100 != 0 || y % 400 == 0)

/-- Days in a month, as validated by the `datetime` constructor. -/
def daysInMonth (y m : Nat) : Nat :=
  if m = 2 then (if isLeap y then 29 else 28)
  else if m = 4 ∨ m = 6 ∨ m = 9 ∨ m = 11 then 30
  else 31

/-- `datetime.strptime(s, "%Y-%m-%d")` (source line 89): four year
digits, a dash, a one/two-digit month, a dash, a one/two-digit day,
end of string; the date must be a valid calendar date with year at
least 1.  Returns `none` where Python raises `ValueError`. -/
def strptimeYMD (s : String) : Option PyDate :=
  match s.toList with
  | c1 :: c2 :: c3 :: c4 :: '-' :: rest =>
    if c1.isDigit && c2.isDigit && c3.isDigit && c4.isDigit then
      match read2or1 12 rest with
      | some (m, '-' :: rest2) =>
        match read2or1 31 rest2 with
        | some (d, []) =>
          if 1 ≤ digitsToNat [c1, c2, c3, c4] ∧ d ≤ daysInMonth (digitsToNat [c1, c2, c3, c4]) m then
            some ⟨digitsToNat [c1, c2, c3, c4], m, d⟩
          else none
        | _ => none
      | _ => none
    else none
  | _ => none

/-- `parse_temporal_tokens(tokens, dataset_type, stats)`
(source lines 84-127), returning the mutated stats. -/
def parse_temporal_tokens (tokens : List String) (dataset_type : DatasetType)
    (stats : Stats) : Stats :=
  match dataset_type with
  | .icews =>
    if 4 ≤ tokens.length then
      match strptimeYMD (tokens.getD 3 "") with
      | none => stats
      | some d =>
        let stats1 := { stats with
          year_counter := bump stats.year_counter (Int.ofNat d.year) }
        { stats1 with
          min_date :=
            match stats1.min_date with
            | none => some d
            | some a => if pyDateLtb d a then some d else some a,
          max_date :=
            match stats1.max_date with
            | none => some d
            | some a => if pyDateLtb a d then some d else some a }
    else stats
  | .wikidata =>
    if 5 ≤ tokens.length then
      let marker := tokens.getD 3 ""
      let year_token := pyTrim (tokens.getD 4 "")
      let stats1 := { stats with
        temporal_marker_counter := bump stats.temporal_marker_counter marker,
        temporal_records := stats.temporal_records + 1 }
      if year_token = "" then stats1
      else
        match pyInt year_token with
        | none => stats1
        | some year =>
          let stats2 := { stats1 with
            year_counter := bump stats1.year_counter year }
          { stats2 with
            min_year :=
              match stats2.min_year with
              | none => some year
              | some m => if intLtb year m then some year else some m,
            max_year :=
              match stats2.max_year with
              | none => some year
              | some m => if intLtb m year then some year else some m }
    else stats
  | .yago =>
    if 5 ≤ tokens.length then
      let marker := pyStrip ['<', '>', '"'] (tokens.getD 3 "")
      let date_token := pyStrip ['"'] (tokens.getD 4 "")
      let stats1 := { stats with
        temporal_marker_counter := bump stats.temporal_marker_counter marker,
        temporal_records := stats.temporal_records + 1 }
      let digits := date_token.toList.filter Char.isDigit
      if 4 ≤ digits.length then
        let year : Int := Int.ofNat (digitsToNat (digits.take 4))
        let stats2 := { stats1 with
          year_counter := bump stats1.year_counter year }
        { stats2 with
          min_year :=
            match stats2.min_year with
            | none => some year
            | some m => if intLtb year m then some year else some m,
          max_year :=
            match stats2.max_year with
            | none => some year
            | some m => if intLtb m year then some year else some m }
      else stats1
    else stats
  | .generic => stats

/-- The body of the per-line loop of `process_file`
(source lines 133-150): strip the raw line, skip blank lines, split on
tabs, skip lines with fewer than three columns, count the triple, and
hand the full token list to the extractor. -/
def process_line (raw_line : String) (dataset_type : DatasetType) (stats : Stats) : Stats :=
  let line := pyTrim raw_line
  if line = "" then stats
  else
    let tokens := pySplitTab line
    if tokens.length < 3 then stats
    else
      let subj := tokens.getD 0 ""
      let rel := tokens.getD 1 ""
      let obj := tokens.getD 2 ""
      let stats1 := { stats with
        triples := stats.triples + 1,
        subjects := setAdd stats.subjects subj,
        objects := setAdd stats.objects obj,
        relations := setAdd stats.relations rel,
        subject_counter := bump stats.subject_counter subj,
        object_counter := bump stats.object_counter obj,
        entity_counter := bump (bump stats.entity_counter subj) obj,
        relation_counter := bump stats.relation_counter rel }
      parse_temporal_tokens tokens dataset_type stats1

/-- The column list the loop body derives from a raw line: strip the
line, then split on tabs. -/
def line_tokens (raw_line : String) : List String :=
  pySplitTab (pyTrim raw_line)

/-- Folding the per-line loop from an arbitrary running state. -/
def process_lines_from (stats : Stats) (lines : List String)
    (dataset_type : DatasetType) : Stats :=
  lines.foldl (fun s l => process_line l dataset_type s) stats

/-- `process_file` (source lines 130-151), over the file's lines. -/
def process_file (lines : List String) (dataset_type : DatasetType) : Stats :=
  process_lines_from init_stats lines dataset_type

/-- One insertion step of the stable descending-by-count sort behind
`Counter.most_common` (source lines 160-165): the incoming entry is
placed before the first entry whose count is less than or equal to its
own, so entries inserted later never overtake earlier entries of equal
count. -/
def orderedInsertDesc {α : Type} (x : α × Nat) :
    List (α × Nat) → List (α × Nat)
  | [] => [x]
  | y :: ys => if y.2 ≤ x.2 then x :: y :: ys else y :: orderedInsertDesc x ys

/-- Stable sort of a dict's entry list by count, descending, modelling
CPython's stable `sorted(..., reverse=True)` used by `most_common`. -/
def sortCountDesc {α : Type} : List (α × Nat) → List (α × Nat)
  | [] => []
  | x :: xs => orderedInsertDesc x (sortCountDesc xs)

/-- `Counter.most_common(n)` over the counter's entries listed in
first-insertion order: the first `n` entries of the stable descending
sort.  `summarize` (source lines 154-171) applies this to each of the
six frequency mappings. -/
def most_common {α : Type} (c : List (α × Nat)) (n : Nat) : List (α × Nat) :=
  (sortCountDesc c).take n

/-- Whether `needle` is a prefix of `hay`, character by character. -/
def leadsWith : List Char → List Char → Bool
  | [], _ => true
  | _ :: _, [] => false
  | a :: as, b :: bs => a == b && leadsWith as bs

/-- Whether `needle` occurs as a contiguous substring of `hay`,
modelling the Python `in` test on strings. -/
def listContainsSub (needle : List Char) : List Char → Bool
  | [] => leadsWith needle []
  | c :: t => leadsWith needle (c :: t) || listContainsSub needle t

/-- Python `needle in hay` on strings. -/
def strContainsSub (hay needle : String) : Bool :=
  listContainsSub needle.toList hay.toList

/-- `guess_dataset_type` (source lines 41-49): case-insensitive
substring dispatch, in priority order, falling back to generic. -/
def guess_dataset_type (dataset_name : String) : DatasetType :=
  if strContainsSub (pyLower dataset_name) "icews" then .icews
  else if strContainsSub (pyLower dataset_name) "wikidata" then .wikidata
  else if strContainsSub (pyLower dataset_name) "yago" then .yago
  else .generic

/-- Insertion step for `sorted` over strings. -/
def insertStr (x : String) : List String → List String
  | [] => [x]
  | y :: ys => if x ≤ y then x :: y :: ys else y :: insertStr x ys

/-- Python `sorted` over a list of strings. -/
def sortStrings : List String → List String
  | [] => []
  | x :: xs => insertStr x (sortStrings xs)

/-- Fatal outcomes of a run: `FileNotFoundError` raised by
`os.listdir` on a missing directory, and the `SystemExit` raised by
`analyze` (source line 229). -/
inductive RunError where
  | fileNotFound : String → RunError
  | systemExit : String → RunError
deriving DecidableEq

/-- `discover_datasets(base_dir, include)` (source lines 213-222) over
an explicit directory listing of (name, is-directory) entries: sorted
subdirectory names, optionally filtered case-insensitively.  A `none`
or empty include list is falsy in Python, so no filter is applied. -/
def discover_datasets (entries : List (String × Bool))
    (include_names : Option (List String)) : List String :=
  let names := sortStrings ((entries.filter (fun e => e.2)).map (fun e => e.1))
  match include_names with
  | none => names
  | some [] => names
  | some inc =>
    names.filter (fun n => (inc.map pyLower).contains (pyLower n))

/-- Insertion step for `sorted` over (filename, lines) pairs. -/
def insertFile (x : String × List String) :
    List (String × List String) → List (String × List String)
  | [] => [x]
  | y :: ys => if x.1 ≤ y.1 then x :: y :: ys else y :: insertFile x ys

/-- Python `sorted` over a dataset directory's (filename, lines)
pairs, by filename. -/
def sortFiles : List (String × List String) → List (String × List String)
  | [] => []
  | x :: xs => insertFile x (sortFiles xs)

/-- The dataset-discovery and aggregation core of `analyze`
(source lines 225-248).  `listing` is the base directory's contents
(`none` when the directory does not exist), `dataset_files` maps a
dataset name to its directory's (filename, lines) pairs.  The result
maps each dataset to its aggregate `Stats` (from which `summarize`
derives the reported summary); errors abort the run with no partial
output. -/
def analyze (base_dir : String) (listing : Option (List (String × Bool)))
    (include_names : Option (List String))
    (dataset_files : String → List (String × List String)) :
    Except RunError (List (String × Stats)) :=
  match listing with
  | none => .error (.fileNotFound base_dir)
  | some entries =>
    let datasets := discover_datasets entries include_names
    if datasets = [] then
      .error (.systemExit ("No dataset folders found under " ++ base_dir ++ "."))
    else
      .ok (datasets.map (fun dataset =>
        let dataset_type := guess_dataset_type dataset
        (dataset,
          ((sortFiles (dataset_files dataset)).filter
              (fun f => f.1.endsWith ".txt")).foldl
            (fun aggregate f => merge_stats aggregate (process_file f.2 dataset_type))
            init_stats)))

/-- Modelled from the spec: the StatsMerger rule for a "min" field,
each of the four extrema treated independently — if one side's value
is absent, adopt the other side's value unconditionally; if both are
present, take the pointwise minimum. -/
def specMergeMin {α : Type} (lt : α → α → Bool) :
    Option α → Option α → Option α
  | none, o => o
  | some a, none => some a
  | some a, some o => some (keepMin lt a o)

/-- Modelled from the spec: the StatsMerger rule for a "max" field —
if one side's value is absent, adopt the other side's value
unconditionally; if both are present, take the pointwise maximum. -/
def specMergeMax {α : Type} (lt : α → α → Bool) :
    Option α → Option α → Option α
  | none, o => o
  | some a, none => some a
  | some a, some o => some (keepMax lt a o)

/-- The representation invariant every `Stats` value built by this
program satisfies: the two bounds of each optional range are set
together. -/
def consistent (s : Stats) : Prop :=
  s.min_date.isSome = s.max_date.isSome ∧ s.min_year.isSome = s.max_year.isSome

instance (s : Stats) : Decidable (consistent s) := by
  unfold consistent
  exact inferInstance

/-- The per-entity frequency invariant of the data model. -/
def entity_invariant (s : Stats) : Prop :=
  ∀ e, s.entity_counter e = s.subject_counter e + s.object_counter e

/-- A `Stats` value with no temporal data at all. -/
def statsNoExtrema : Stats := init_stats

/-- A `Stats` value of the raw dataclass state space whose maximum
year is set while its minimum year is absent; the program itself never
builds such a value, but the dataclass admits it. -/
def statsHalfYear : Stats := { init_stats with max_year := some 5 }

/-- Sample accumulated statistics of a small event-calendar file. -/
def sampleA : Stats := process_file ["A\tr\tB\t2010-05-01"] .icews

/-- Sample accumulated statistics of a second event-calendar file. -/
def sampleB : Stats := process_file ["C\ts\tD\t2001-01-02"] .icews

/-- Sample accumulated statistics of a small linked-data file. -/
def sampleC : Stats := process_file ["A\trel\tB\tsince\t1990"] .wikidata

/-! ### Order lemmas for the strict comparisons used by the min/max updates -/

theorem pyDateLtb_irrefl (a : PyDate) : pyDateLtb a a = false := by
  simp [pyDateLtb]

theorem pyDateLtb_asym (a b : PyDate) (h : pyDateLtb a b = true) :
    pyDateLtb b a = false := by
  simp only [pyDateLtb, decide_eq_true_eq, decide_eq_false_iff_not] at h ⊢
  omega

theorem pyDateLtb_anti (a b : PyDate) (h1 : pyDateLtb a b = false)
    (h2 : pyDateLtb b a = false) : a = b := by
  cases a
  cases b
  simp only [pyDateLtb, decide_eq_false_iff_not] at h1 h2
  simp only [PyDate.mk.injEq]
  omega

theorem pyDateLtb_trans (a b c : PyDate) (h1 : pyDateLtb a b = true)
    (h2 : pyDateLtb b c = true) : pyDateLtb a c = true := by
  simp only [pyDateLtb, decide_eq_true_eq] at h1 h2 ⊢
  omega

theorem pyDateLtb_negtrans (a b c : PyDate) (h1 : pyDateLtb a b = false)
    (h2 : pyDateLtb b c = false) : pyDateLtb a c = false := by
  simp only [pyDateLtb, decide_eq_false_iff_not] at h1 h2 ⊢
  omega

theorem intLtb_irrefl (a : Int) : intLtb a a = false := by
  simp [intLtb]

theorem intLtb_asym (a b : Int) (h : intLtb a b = true) : intLtb b a = false := by
  simp only [intLtb, decide_eq_true_eq, decide_eq_false_iff_not] at h ⊢
  omega

theorem intLtb_anti (a b : Int) (h1 : intLtb a b = false)
    (h2 : intLtb b a = false) : a = b := by
  simp only [intLtb, decide_eq_false_iff_not] at h1 h2
  omega

theorem intLtb_trans (a b c : Int) (h1 : intLtb a b = true)
    (h2 : intLtb b c = true) : intLtb a c = true := by
  simp only [intLtb, decide_eq_true_eq] at h1 h2 ⊢
  omega

theorem intLtb_negtrans (a b c : Int) (h1 : intLtb a b = false)
    (h2 : intLtb b c = false) : intLtb a c = false := by
  simp only [intLtb, decide_eq_false_iff_not] at h1 h2 ⊢
  omega

theorem keepMin_comm {α : Type} (lt : α → α → Bool)
    (hanti : ∀ a b, lt a b = false → lt b a = false → a = b)
    (hasym : ∀ a b, lt a b = true → lt b a = false)
    (a b : α) : keepMin lt a b = keepMin lt b a := by
  unfold keepMin
  cases hab : lt a b <;> cases hba : lt b a
  · have h := hanti a b hab hba
    simp [hab, hba, h]
  · simp [hab, hba]
  · simp [hab, hba]
  · have := hasym a b hab
    rw [this] at hba
    cases hba

theorem keepMax_comm {α : Type} (lt : α → α → Bool)
    (hanti : ∀ a b, lt a b = false → lt b a = false → a = b)
    (hasym : ∀ a b, lt a b = true → lt b a = false)
    (a b : α) : keepMax lt a b = keepMax lt b a := by
  unfold keepMax
  cases hab : lt a b <;> cases hba : lt b a
  · have h := hanti a b hab hba
    simp [hab, hba, h]
  · simp [hab, hba]
  · simp [hab, hba]
  · have := hasym a b hab
    rw [this] at hba
    cases hba

theorem keepMin_assoc {α : Type} (lt : α → α → Bool)
    (htrans : ∀ x y z, lt x y = true → lt y z = true → lt x z = true)
    (hneg : ∀ x y z, lt x y = false → lt y z = false → lt x z = false)
    (a b c : α) :
    keepMin lt (keepMin lt a b) c = keepMin lt a (keepMin lt b c) := by
  unfold keepMin
  cases hba : lt b a <;> cases hcb : lt c b
  · have hca := hneg c b a hcb hba
    simp [hba, hcb, hca]
  · simp [hba, hcb]
  · simp [hba, hcb]
  · have hca := htrans c b a hcb hba
    simp [hba, hcb, hca]

theorem keepMax_assoc {α : Type} (lt : α → α → Bool)
    (htrans : ∀ x y z, lt x y = true → lt y z = true → lt x z = true)
    (hneg : ∀ x y z, lt x y = false → lt y z = false → lt x z = false)
    (a b c : α) :
    keepMax lt (keepMax lt a b) c = keepMax lt a (keepMax lt b c) := by
  unfold keepMax
  cases hab : lt a b <;> cases hbc : lt b c
  · have hac := hneg a b c hab hbc
    simp [hab, hbc, hac]
  · simp [hab, hbc]
  · simp [hab, hbc]
  · have hac := htrans a b c hab hbc
    simp [hab, hbc, hac]

/-! ### Properties of the extrema-merging block -/

theorem mergeExtrema_comm {α : Type} (lt : α → α → Bool)
    (hanti : ∀ a b, lt a b = false → lt b a = false → a = b)
    (hasym : ∀ a b, lt a b = true → lt b a = false)
    (amin amax omin omax : Option α)
    (ha : amin.isSome = amax.isSome) (hb : omin.isSome = omax.isSome) :
    mergeExtrema lt amin amax omin omax = mergeExtrema lt omin omax amin amax := by
  cases amin <;> cases amax <;> cases omin <;> cases omax <;>
    first
    | exact Bool.noConfusion ha
    | exact Bool.noConfusion hb
    | rfl
    | (show ((some (keepMin lt _ _) : Option α), (some (keepMax lt _ _) : Option α))
          = (some (keepMin lt _ _), some (keepMax lt _ _))
       rw [keepMin_comm lt hanti hasym, keepMax_comm lt hanti hasym])

theorem mergeExtrema_consistent {α : Type} (lt : α → α → Bool)
    (amin amax omin omax : Option α)
    (ha : amin.isSome = amax.isSome) (hb : omin.isSome = omax.isSome) :
    (mergeExtrema lt amin amax omin omax).1.isSome
      = (mergeExtrema lt amin amax omin omax).2.isSome := by
  cases amin <;> cases amax <;> cases omin <;> cases omax <;>
    simp_all [mergeExtrema]

theorem mergeExtrema_assoc {α : Type} (lt : α → α → Bool)
    (htrans : ∀ x y z, lt x y = true → lt y z = true → lt x z = true)
    (hneg : ∀ x y z, lt x y = false → lt y z = false → lt x z = false)
    (amin amax bmin bmax cmin cmax : Option α)
    (ha : amin.isSome = amax.isSome) (hb : bmin.isSome = bmax.isSome)
    (hc : cmin.isSome = cmax.isSome) :
    mergeExtrema lt (mergeExtrema lt amin amax bmin bmax).1
        (mergeExtrema lt amin amax bmin bmax).2 cmin cmax
      = mergeExtrema lt amin amax (mergeExtrema lt bmin bmax cmin cmax).1
          (mergeExtrema lt bmin bmax cmin cmax).2 := by
  cases amin <;> cases amax <;> cases bmin <;> cases bmax <;>
    cases cmin <;> cases cmax <;>
    first
    | exact Bool.noConfusion ha
    | exact Bool.noConfusion hb
    | exact Bool.noConfusion hc
    | rfl
    | (show ((some (keepMin lt (keepMin lt _ _) _) : Option α),
            (some (keepMax lt (keepMax lt _ _) _) : Option α))
          = (some (keepMin lt _ (keepMin lt _ _)), some (keepMax lt _ (keepMax lt _ _)))
       rw [keepMin_assoc lt htrans hneg, keepMax_assoc lt htrans hneg])

theorem mergeExtrema_spec {α : Type} (lt : α → α → Bool)
    (amin amax omin omax : Option α)
    (ha : amin.isSome = amax.isSome) (hb : omin.isSome = omax.isSome) :
    (mergeExtrema lt amin amax omin omax).1 = specMergeMin lt amin omin ∧
    (mergeExtrema lt amin amax omin omax).2 = specMergeMax lt amax omax := by
  cases amin <;> cases amax <;> cases omin <;> cases omax <;>
    simp_all [mergeExtrema, specMergeMin, specMergeMax]

/-! ### Stats-level merge lemmas -/

theorem merge_stats_comm (A B : Stats) (hA : consistent A) (hB : consistent B) :
    merge_stats A B = merge_stats B A := by
  obtain ⟨hA1, hA2⟩ := hA
  obtain ⟨hB1, hB2⟩ := hB
  have hd := mergeExtrema_comm pyDateLtb pyDateLtb_anti pyDateLtb_asym
    A.min_date A.max_date B.min_date B.max_date hA1 hB1
  have hy := mergeExtrema_comm intLtb intLtb_anti intLtb_asym
    A.min_year A.max_year B.min_year B.max_year hA2 hB2
  ext <;> simp [merge_stats, Nat.add_comm, Bool.or_comm, hd, hy]

theorem merge_stats_assoc (A B C : Stats)
    (hA : consistent A) (hB : consistent B) (hC : consistent C) :
    merge_stats (merge_stats A B) C = merge_stats A (merge_stats B C) := by
  obtain ⟨hA1, hA2⟩ := hA
  obtain ⟨hB1, hB2⟩ := hB
  obtain ⟨hC1, hC2⟩ := hC
  have hd := mergeExtrema_assoc pyDateLtb pyDateLtb_trans pyDateLtb_negtrans
    A.min_date A.max_date B.min_date B.max_date C.min_date C.max_date hA1 hB1 hC1
  have hy := mergeExtrema_assoc intLtb intLtb_trans intLtb_negtrans
    A.min_year A.max_year B.min_year B.max_year C.min_year C.max_year hA2 hB2 hC2
  ext <;> simp [merge_stats, Nat.add_assoc, Bool.or_assoc, hd, hy]

theorem merge_stats_consistent (A B : Stats)
    (hA : consistent A) (hB : consistent B) : consistent (merge_stats A B) := by
  obtain ⟨hA1, hA2⟩ := hA
  obtain ⟨hB1, hB2⟩ := hB
  exact ⟨mergeExtrema_consistent pyDateLtb A.min_date A.max_date B.min_date B.max_date hA1 hB1,
    mergeExtrema_consistent intLtb A.min_year A.max_year B.min_year B.max_year hA2 hB2⟩

/-! ### Frame and preservation lemmas for the extractor and the loop body -/

theorem bump_apply {α : Type} [DecidableEq α] (c : α → Nat) (k x : α) :
    bump c k x = c x + (if x = k then 1 else 0) := by
  unfold bump
  by_cases h : x = k <;> simp [h]

theorem setAdd_apply (s : String → Bool) (k x : String) :
    setAdd s k x = (s x || decide (x = k)) := by
  unfold setAdd
  by_cases h : x = k <;> simp [h]

theorem parse_frame (tokens : List String) (dt : DatasetType) (s : Stats) :
    (parse_temporal_tokens tokens dt s).triples = s.triples ∧
    (parse_temporal_tokens tokens dt s).subjects = s.subjects ∧
    (parse_temporal_tokens tokens dt s).objects = s.objects ∧
    (parse_temporal_tokens tokens dt s).relations = s.relations ∧
    (parse_temporal_tokens tokens dt s).subject_counter = s.subject_counter ∧
    (parse_temporal_tokens tokens dt s).object_counter = s.object_counter ∧
    (parse_temporal_tokens tokens dt s).entity_counter = s.entity_counter ∧
    (parse_temporal_tokens tokens dt s).relation_counter = s.relation_counter := by
  cases dt <;> simp only [parse_temporal_tokens] <;> (repeat' split) <;> simp

theorem parse_icews_frame (tokens : List String) (s : Stats) :
    (parse_temporal_tokens tokens .icews s).temporal_records = s.temporal_records ∧
    (parse_temporal_tokens tokens .icews s).temporal_marker_counter
      = s.temporal_marker_counter := by
  simp only [parse_temporal_tokens]
  (repeat' split) <;> simp

theorem parse_consistent (tokens : List String) (dt : DatasetType) (s : Stats)
    (h : consistent s) : consistent (parse_temporal_tokens tokens dt s) := by
  obtain ⟨h1, h2⟩ := h
  cases dt <;> simp only [parse_temporal_tokens] <;> (repeat' split) <;>
    first
    | exact ⟨h1, h2⟩
    | (constructor <;> simp_all [consistent])

theorem process_line_skip_blank (l : String) (dt : DatasetType) (s : Stats)
    (h : pyTrim l = "") : process_line l dt s = s := by
  simp [process_line, h]

theorem process_line_skip_short (l : String) (dt : DatasetType) (s : Stats)
    (h3 : (line_tokens l).length < 3) : process_line l dt s = s := by
  by_cases hb : pyTrim l = ""
  · simp [process_line, hb]
  · have h3' : (pySplitTab (pyTrim l)).length < 3 := by
      simpa [line_tokens] using h3
    simp only [process_line]
    rw [if_neg hb, if_pos h3']

theorem process_line_eq (l : String) (dt : DatasetType) (s : Stats)
    (hnb : pyTrim l ≠ "") (h3 : ¬ (line_tokens l).length < 3) :
    process_line l dt s = parse_temporal_tokens (line_tokens l) dt
      { s with
        triples := s.triples + 1,
        subjects := setAdd s.subjects ((line_tokens l).getD 0 ""),
        objects := setAdd s.objects ((line_tokens l).getD 2 ""),
        relations := setAdd s.relations ((line_tokens l).getD 1 ""),
        subject_counter := bump s.subject_counter ((line_tokens l).getD 0 ""),
        object_counter := bump s.object_counter ((line_tokens l).getD 2 ""),
        entity_counter :=
          bump (bump s.entity_counter ((line_tokens l).getD 0 ""))
            ((line_tokens l).getD 2 ""),
        relation_counter := bump s.relation_counter ((line_tokens l).getD 1 "") } := by
  have h3' : ¬ (pySplitTab (pyTrim l)).length < 3 := by
    simpa [line_tokens] using h3
  simp only [process_line]
  rw [if_neg hnb, if_neg h3']
  rfl

theorem parse_entity (tokens : List String) (dt : DatasetType) (s : Stats)
    (h : entity_invariant s) : entity_invariant (parse_temporal_tokens tokens dt s) := by
  intro k
  obtain ⟨-, -, -, -, h5, h6, h7, -⟩ := parse_frame tokens dt s
  rw [h7, h5, h6]
  exact h k

theorem process_line_consistent (l : String) (dt : DatasetType) (s : Stats)
    (h : consistent s) : consistent (process_line l dt s) := by
  by_cases hb : pyTrim l = ""
  · rw [process_line_skip_blank l dt s hb]
    exact h
  · by_cases h3 : (line_tokens l).length < 3
    · rw [process_line_skip_short l dt s h3]
      exact h
    · rw [process_line_eq l dt s hb h3]
      exact parse_consistent _ _ _ h

theorem process_lines_from_consistent (lines : List String) (dt : DatasetType) :
    ∀ s : Stats, consistent s → consistent (process_lines_from s lines dt) := by
  induction lines with
  | nil => exact fun s h => h
  | cons l rest ih =>
    intro s h
    exact ih (process_line l dt s) (process_line_consistent l dt s h)

theorem process_file_consistent (lines : List String) (dt : DatasetType) :
    consistent (process_file lines dt) :=
  process_lines_from_consistent lines dt init_stats ⟨rfl, rfl⟩

theorem process_line_entity (l : String) (dt : DatasetType) (s : Stats)
    (h : entity_invariant s) : entity_invariant (process_line l dt s) := by
  by_cases hb : pyTrim l = ""
  · rw [process_line_skip_blank l dt s hb]
    exact h
  · by_cases h3 : (line_tokens l).length < 3
    · rw [process_line_skip_short l dt s h3]
      exact h
    · rw [process_line_eq l dt s hb h3]
      apply parse_entity
      intro k
      show bump (bump s.entity_counter _) _ k
        = bump s.subject_counter _ k + bump s.object_counter _ k
      simp only [bump_apply]
      have := h k
      omega

theorem process_lines_from_entity (lines : List String) (dt : DatasetType) :
    ∀ s : Stats, entity_invariant s → entity_invariant (process_lines_from s lines dt) := by
  induction lines with
  | nil => exact fun s h => h
  | cons l rest ih =>
    intro s h
    exact ih (process_line l dt s) (process_line_entity l dt s h)

theorem merge_stats_entity (A B : Stats)
    (hA : entity_invariant A) (hB : entity_invariant B) :
    entity_invariant (merge_stats A B) := by
  intro k
  show A.entity_counter k + B.entity_counter k
    = (A.subject_counter k + B.subject_counter k)
      + (A.object_counter k + B.object_counter k)
  have h1 := hA k
  have h2 := hB k
  omega

theorem process_line_icews_temporal (l : String) (s : Stats) :
    (process_line l .icews s).temporal_records = s.temporal_records ∧
    (process_line l .icews s).temporal_marker_counter = s.temporal_marker_counter := by
  by_cases hb : pyTrim l = ""
  · rw [process_line_skip_blank l .icews s hb]
    exact ⟨rfl, rfl⟩
  · by_cases h3 : (line_tokens l).length < 3
    · rw [process_line_skip_short l .icews s h3]
      exact ⟨rfl, rfl⟩
    · rw [process_line_eq l .icews s hb h3]
      exact ⟨(parse_icews_frame _ _).1, (parse_icews_frame _ _).2⟩

theorem process_lines_from_icews_temporal (lines : List String) :
    ∀ s : Stats,
      (process_lines_from s lines .icews).temporal_records = s.temporal_records ∧
      (process_lines_from s lines .icews).temporal_marker_counter
        = s.temporal_marker_counter := by
  induction lines with
  | nil => exact fun s => ⟨rfl, rfl⟩
  | cons l rest ih =>
    intro s
    obtain ⟨e1, e2⟩ := ih (process_line l .icews s)
    obtain ⟨f1, f2⟩ := process_line_icews_temporal l s
    exact ⟨e1.trans f1, e2.trans f2⟩

/-! ### Properties of the stable descending ranking behind most_common -/

theorem length_orderedInsertDesc {α : Type} (x : α × Nat) (l : List (α × Nat)) :
    (orderedInsertDesc x l).length = l.length + 1 := by
  induction l with
  | nil => rfl
  | cons y ys ih =>
    unfold orderedInsertDesc
    by_cases h : y.2 ≤ x.2 <;> simp [h, ih]

theorem length_sortCountDesc {α : Type} (l : List (α × Nat)) :
    (sortCountDesc l).length = l.length := by
  induction l with
  | nil => rfl
  | cons x xs ih =>
    unfold sortCountDesc
    rw [length_orderedInsertDesc, ih, List.length_cons]

theorem mem_orderedInsertDesc {α : Type} (z x : α × Nat) (l : List (α × Nat)) :
    z ∈ orderedInsertDesc x l ↔ z = x ∨ z ∈ l := by
  induction l with
  | nil => simp [orderedInsertDesc]
  | cons y ys ih =>
    unfold orderedInsertDesc
    by_cases h : y.2 ≤ x.2 <;> (simp [h, ih]; try tauto)

theorem pairwise_orderedInsertDesc {α : Type} (x : α × Nat) (l : List (α × Nat))
    (hl : List.Pairwise (fun a b : α × Nat => b.2 ≤ a.2) l) :
    List.Pairwise (fun a b : α × Nat => b.2 ≤ a.2) (orderedInsertDesc x l) := by
  induction l with
  | nil => simp [orderedInsertDesc]
  | cons y ys ih =>
    unfold orderedInsertDesc
    by_cases h : y.2 ≤ x.2
    · rw [if_pos h]
      refine List.Pairwise.cons ?_ hl
      intro z hz
      rcases List.mem_cons.mp hz with hz1 | hz1
      · subst hz1
        omega
      · have := (List.pairwise_cons.mp hl).1 z hz1
        omega
    · rw [if_neg h]
      refine List.Pairwise.cons ?_ (ih (List.pairwise_cons.mp hl).2)
      intro z hz
      rcases (mem_orderedInsertDesc z x ys).mp hz with hz | hz
      · subst hz
        omega
      · exact (List.pairwise_cons.mp hl).1 z hz

theorem pairwise_sortCountDesc {α : Type} (l : List (α × Nat)) :
    List.Pairwise (fun a b : α × Nat => b.2 ≤ a.2) (sortCountDesc l) := by
  induction l with
  | nil => simp [sortCountDesc]
  | cons x xs ih => exact pairwise_orderedInsertDesc x (sortCountDesc xs) ih

theorem filter_orderedInsertDesc {α : Type} (x : α × Nat) (l : List (α × Nat)) (k : Nat) :
    (orderedInsertDesc x l).filter (fun e => e.2 == k)
      = if x.2 = k then x :: l.filter (fun e => e.2 == k)
        else l.filter (fun e => e.2 == k) := by
  induction l with
  | nil =>
    by_cases h : x.2 = k <;> simp [orderedInsertDesc, List.filter_cons, beq_iff_eq, h]
  | cons y ys ih =>
    unfold orderedInsertDesc
    by_cases h : y.2 ≤ x.2
    · rw [if_pos h]
      by_cases hx : x.2 = k <;> simp [List.filter_cons, beq_iff_eq, hx]
    · rw [if_neg h]
      by_cases hx : x.2 = k
      · have hy : ¬ y.2 = k := by omega
        simp [List.filter_cons, beq_iff_eq, hx, hy, ih]
      · by_cases hy : y.2 = k <;> simp [List.filter_cons, beq_iff_eq, hx, hy, ih]

theorem filter_sortCountDesc {α : Type} (c : List (α × Nat)) (k : Nat) :
    (sortCountDesc c).filter (fun e => e.2 == k) = c.filter (fun e => e.2 == k) := by
  induction c with
  | nil => rfl
  | cons x xs ih =>
    unfold sortCountDesc
    rw [filter_orderedInsertDesc]
    by_cases hx : x.2 = k <;> simp [List.filter_cons, beq_iff_eq, hx, ih]

/-! ### Claim C1 -/

/-- C1: merging is commutative and associative — counts, set unions,
frequency sums and extrema all commute and associate — for all Stats
values satisfying the representation invariant that the two bounds of
each optional range are set together (which holds for every Stats
value the program builds, including one with no temporal data at all);
the theorem also proves that every accumulated Stats value satisfies
this invariant and that merging preserves it. -/
theorem c1_merge_comm_assoc :
    (∀ A B C : Stats, consistent A → consistent B → consistent C →
      merge_stats A B = merge_stats B A ∧
      merge_stats (merge_stats A B) C = merge_stats A (merge_stats B C)) ∧
    (∀ (lines : List String) (dt : DatasetType), consistent (process_file lines dt)) ∧
    (∀ A B : Stats, consistent A → consistent B → consistent (merge_stats A B)) :=
  ⟨fun A B C hA hB hC =>
    ⟨merge_stats_comm A B hA hB, merge_stats_assoc A B C hA hB hC⟩,
   process_file_consistent,
   merge_stats_consistent⟩

/-- C1 counterexample: over the raw dataclass state space the claim
"for all Stats values" fails — a value whose max_year is set while its
min_year is absent merges non-commutatively, because the whole year
block of merge_stats is guarded by the other side's min_year. -/
theorem c1_counterexample :
    merge_stats statsNoExtrema statsHalfYear
      ≠ merge_stats statsHalfYear statsNoExtrema := by
  intro h
  have h2 := congrArg Stats.max_year h
  rw [show (merge_stats statsNoExtrema statsHalfYear).max_year = none from rfl,
    show (merge_stats statsHalfYear statsNoExtrema).max_year = some 5 from rfl] at h2
  exact Option.noConfusion h2

/-- C1 witness: the theorem applied to two concretely accumulated
event-calendar Stats values. -/
theorem c1_witness :
    consistent sampleA ∧ consistent sampleB ∧
    merge_stats sampleA sampleB = merge_stats sampleB sampleA ∧
    merge_stats (merge_stats sampleA sampleB) sampleA
      = merge_stats sampleA (merge_stats sampleB sampleA) := by
  have hA : consistent sampleA := by decide
  have hB : consistent sampleB := by decide
  obtain ⟨h1, h2⟩ := c1_merge_comm_assoc.1 sampleA sampleB sampleA hA hB hA
  exact ⟨hA, hB, h1, h2⟩

/-! ### Claim C2 -/

/-- C2: for Stats values satisfying the bounds-set-together invariant
(as every program-built Stats value does), each of minDate, maxDate,
minYear, maxYear is merged independently by the spec rule: adopt the
other side's value when one side is absent, pointwise min/max when
both are present; in particular a full date range merged into an
aggregate with no prior range is adopted whole. -/
theorem c2_merge_extrema_rule (A B : Stats)
    (hA : consistent A) (hB : consistent B) :
    (merge_stats A B).min_date = specMergeMin pyDateLtb A.min_date B.min_date ∧
    (merge_stats A B).max_date = specMergeMax pyDateLtb A.max_date B.max_date ∧
    (merge_stats A B).min_year = specMergeMin intLtb A.min_year B.min_year ∧
    (merge_stats A B).max_year = specMergeMax intLtb A.max_year B.max_year := by
  obtain ⟨hA1, hA2⟩ := hA
  obtain ⟨hB1, hB2⟩ := hB
  obtain ⟨d1, d2⟩ :=
    mergeExtrema_spec pyDateLtb A.min_date A.max_date B.min_date B.max_date hA1 hB1
  obtain ⟨y1, y2⟩ :=
    mergeExtrema_spec intLtb A.min_year A.max_year B.min_year B.max_year hA2 hB2
  exact ⟨d1, d2, y1, y2⟩

/-- C2 counterexample: on the raw dataclass state space the four
fields are not merged independently — an absent accumulator max_year
does not adopt the other side's present max_year when the other side's
min_year is absent, because the max update is guarded by the other
side's min_year. -/
theorem c2_counterexample :
    (merge_stats statsNoExtrema statsHalfYear).max_year
      ≠ specMergeMax intLtb statsNoExtrema.max_year statsHalfYear.max_year := by
  decide

/-- C2 witness: the theorem applied to a dated event-calendar Stats
value and a year-carrying linked-data Stats value. -/
theorem c2_witness :
    consistent sampleA ∧ consistent sampleC ∧
    ((merge_stats sampleA sampleC).min_date
        = specMergeMin pyDateLtb sampleA.min_date sampleC.min_date ∧
      (merge_stats sampleA sampleC).max_date
        = specMergeMax pyDateLtb sampleA.max_date sampleC.max_date ∧
      (merge_stats sampleA sampleC).min_year
        = specMergeMin intLtb sampleA.min_year sampleC.min_year ∧
      (merge_stats sampleA sampleC).max_year
        = specMergeMax intLtb sampleA.max_year sampleC.max_year) := by
  have hA : consistent sampleA := by decide
  have hC : consistent sampleC := by decide
  exact ⟨hA, hC, c2_merge_extrema_rule sampleA sampleC hA hC⟩

/-! ### Claim C3 -/

/-- C3: for a FactExtraction (yago) line with at least 5 columns, the
extractor strips angle-bracket/quote characters from column 4 to get
the marker (always counted, with a temporal record), strips quotes
from column 5 to get the date token, and then concatenates ALL digit
characters of the date token — not only the leading run; if that digit
string has at least 4 digits its first 4 form the contributed year,
otherwise no year is contributed.  In particular a token such as
1-9950 does contribute a year (1995). -/
theorem c3_yago_year_rule (tokens : List String) (s : Stats)
    (h5 : 5 ≤ tokens.length) :
    (parse_temporal_tokens tokens .yago s).temporal_marker_counter
      = bump s.temporal_marker_counter (pyStrip ['<', '>', '"'] (tokens.getD 3 "")) ∧
    (parse_temporal_tokens tokens .yago s).temporal_records = s.temporal_records + 1 ∧
    (4 ≤ ((pyStrip ['"'] (tokens.getD 4 "")).toList.filter Char.isDigit).length →
      (parse_temporal_tokens tokens .yago s).year_counter
        = bump s.year_counter
            (Int.ofNat (digitsToNat
              (((pyStrip ['"'] (tokens.getD 4 "")).toList.filter Char.isDigit).take 4)))) ∧
    (((pyStrip ['"'] (tokens.getD 4 "")).toList.filter Char.isDigit).length < 4 →
      (parse_temporal_tokens tokens .yago s).year_counter = s.year_counter ∧
      (parse_temporal_tokens tokens .yago s).min_year = s.min_year ∧
      (parse_temporal_tokens tokens .yago s).max_year = s.max_year) := by
  simp only [parse_temporal_tokens, if_pos h5]
  by_cases hd : 4 ≤ ((pyStrip ['"'] (tokens.getD 4 "")).toList.filter Char.isDigit).length
  · rw [if_pos hd]
    exact ⟨rfl, rfl, fun _ => rfl, fun hlt => absurd hd (by omega)⟩
  · rw [if_neg hd]
    exact ⟨rfl, rfl, fun hge => absurd hge hd, fun _ => ⟨rfl, rfl, rfl⟩⟩

/-- C3 counterexample: the claim says a date token whose leading digit
run is shorter than 4 digits, such as 1-9950, contributes no year; the
code concatenates all five digits and contributes year 1995. -/
theorem c3_counterexample :
    (parse_temporal_tokens ["s", "r", "o", "<occursSince>", "1-9950"] .yago
        init_stats).year_counter 1995 = 1 ∧
    (parse_temporal_tokens ["s", "r", "o", "<occursSince>", "1-9950"] .yago
        init_stats).min_year = some 1995 ∧
    init_stats.year_counter 1995 = 0 := by
  exact ⟨by decide, by decide, rfl⟩

/-- C3 witness: the theorem applied to the spec's own example line,
marker occursSince with date "1995-01-01". -/
theorem c3_witness :
    (parse_temporal_tokens ["s", "r", "o", "<occursSince>", "\"1995-01-01\""] .yago
        init_stats).temporal_records = init_stats.temporal_records + 1 ∧
    (parse_temporal_tokens ["s", "r", "o", "<occursSince>", "\"1995-01-01\""] .yago
        init_stats).temporal_marker_counter
      = bump init_stats.temporal_marker_counter
          (pyStrip ['<', '>', '"']
            ((["s", "r", "o", "<occursSince>", "\"1995-01-01\""] : List String).getD 3 "")) ∧
    (parse_temporal_tokens ["s", "r", "o", "<occursSince>", "\"1995-01-01\""] .yago
        init_stats).year_counter
      = bump init_stats.year_counter
          (Int.ofNat (digitsToNat
            (((pyStrip ['"']
                ((["s", "r", "o", "<occursSince>", "\"1995-01-01\""] : List String).getD 4
                  "")).toList.filter Char.isDigit).take 4))) := by
  obtain ⟨h1, h2, h3, -⟩ :=
    c3_yago_year_rule ["s", "r", "o", "<occursSince>", "\"1995-01-01\""] init_stats
      (by decide)
  exact ⟨h2, h1, h3 (by decide)⟩

/-! ### Claim C4 -/

/-- C4: for every accepted LinkedData (wikidata) line whose stripped
form splits into at least 5 columns — including one whose 5th column
is empty after trimming, which can arise from a whitespace-only middle
column — the marker's frequency and temporalRecordCount each increase
by exactly 1 regardless of whether the year token parses; an empty or
unparsable year token contributes no year, a parsable one increments
yearFreq[year].  (A raw line ending in a tab after the marker does not
belong here: the line is stripped before splitting, so it yields only
4 columns and contributes no temporal record — see the
counterexample.) -/
theorem c4_wikidata_line (l : String) (s : Stats)
    (h5 : 5 ≤ (line_tokens l).length) :
    (process_line l .wikidata s).triples = s.triples + 1 ∧
    (process_line l .wikidata s).temporal_marker_counter
      = bump s.temporal_marker_counter ((line_tokens l).getD 3 "") ∧
    (process_line l .wikidata s).temporal_records = s.temporal_records + 1 ∧
    (pyInt (pyTrim ((line_tokens l).getD 4 "")) = none →
      (process_line l .wikidata s).year_counter = s.year_counter ∧
      (process_line l .wikidata s).min_year = s.min_year ∧
      (process_line l .wikidata s).max_year = s.max_year) ∧
    (∀ y : Int, pyInt (pyTrim ((line_tokens l).getD 4 "")) = some y →
      (process_line l .wikidata s).year_counter = bump s.year_counter y) := by
  have hnb : pyTrim l ≠ "" := by
    intro he
    have h1 : (line_tokens l).length = 1 := by
      simp only [line_tokens, he]
      decide
    omega
  have h3 : ¬ (line_tokens l).length < 3 := by omega
  rw [process_line_eq l .wikidata s hnb h3]
  simp only [parse_temporal_tokens, if_pos h5]
  by_cases he : pyTrim ((line_tokens l).getD 4 "") = ""
  · rw [if_pos he]
    refine ⟨rfl, rfl, rfl, fun _ => ⟨rfl, rfl, rfl⟩, fun y hy => ?_⟩
    rw [he] at hy
    exact Option.noConfusion hy
  · rw [if_neg he]
    cases hy : pyInt (pyTrim ((line_tokens l).getD 4 "")) with
    | none =>
      refine ⟨rfl, rfl, rfl, fun _ => ⟨rfl, rfl, rfl⟩, fun y h => ?_⟩
      exact Option.noConfusion h
    | some y0 =>
      refine ⟨rfl, rfl, rfl, fun hnone => ?_, fun y h => ?_⟩
      · exact Option.noConfusion hnone
      · injection h with h
        subst h
        rfl

/-- C4 counterexample: a raw line ending in a tab after the marker is
stripped before splitting, so it has only 4 columns; it is accepted as
a triple but contributes no temporal record and no marker count, where
the claim demanded both increase by exactly 1. -/
theorem c4_counterexample :
    (line_tokens "A\trel\tB\tsince\t").length = 4 ∧
    (process_line "A\trel\tB\tsince\t" .wikidata init_stats).triples = 1 ∧
    (process_line "A\trel\tB\tsince\t" .wikidata init_stats).temporal_records = 0 ∧
    (process_line "A\trel\tB\tsince\t" .wikidata init_stats).temporal_marker_counter
      "since" = 0 := by
  exact ⟨by decide, by decide, by decide, by decide⟩

/-- C4 witness: the theorem applied to the spec's example line
A rel B since 1990. -/
theorem c4_witness :
    5 ≤ (line_tokens "A\trel\tB\tsince\t1990").length ∧
    (process_line "A\trel\tB\tsince\t1990" .wikidata init_stats).temporal_records
      = init_stats.temporal_records + 1 ∧
    (process_line "A\trel\tB\tsince\t1990" .wikidata init_stats).temporal_marker_counter
      = bump init_stats.temporal_marker_counter
          ((line_tokens "A\trel\tB\tsince\t1990").getD 3 "") ∧
    (process_line "A\trel\tB\tsince\t1990" .wikidata init_stats).year_counter
      = bump init_stats.year_counter 1990 := by
  have h5 : 5 ≤ (line_tokens "A\trel\tB\tsince\t1990").length := by decide
  obtain ⟨-, h2, h3, -, hy⟩ := c4_wikidata_line "A\trel\tB\tsince\t1990" init_stats h5
  exact ⟨h5, h3, h2, hy 1990 (by decide)⟩

/-! ### Claims C5 and C6 -/

theorem process_line_fields (l : String) (dt : DatasetType) (s : Stats)
    (hnb : pyTrim l ≠ "") (h3 : ¬ (line_tokens l).length < 3) :
    (process_line l dt s).triples = s.triples + 1 ∧
    (process_line l dt s).subjects = setAdd s.subjects ((line_tokens l).getD 0 "") ∧
    (process_line l dt s).objects = setAdd s.objects ((line_tokens l).getD 2 "") ∧
    (process_line l dt s).relations = setAdd s.relations ((line_tokens l).getD 1 "") ∧
    (process_line l dt s).subject_counter
      = bump s.subject_counter ((line_tokens l).getD 0 "") ∧
    (process_line l dt s).object_counter
      = bump s.object_counter ((line_tokens l).getD 2 "") ∧
    (process_line l dt s).relation_counter
      = bump s.relation_counter ((line_tokens l).getD 1 "") ∧
    (process_line l dt s).entity_counter
      = bump (bump s.entity_counter ((line_tokens l).getD 0 ""))
          ((line_tokens l).getD 2 "") := by
  rw [process_line_eq l dt s hnb h3]
  exact ⟨(parse_frame _ _ _).1, (parse_frame _ _ _).2.1, (parse_frame _ _ _).2.2.1,
    (parse_frame _ _ _).2.2.2.1, (parse_frame _ _ _).2.2.2.2.1,
    (parse_frame _ _ _).2.2.2.2.2.1, (parse_frame _ _ _).2.2.2.2.2.2.2,
    (parse_frame _ _ _).2.2.2.2.2.2.1⟩

/-- C5: for every non-blank input line, fewer than 3 tab-separated
columns leaves the Stats value completely unchanged; with 3 or more
columns, tripleCount increases by exactly 1, columns 1-3 are added to
the subjects, relations and objects sets, and the subject, object,
relation and entity frequencies receive exactly the listed increments
(the entity frequency of a key gains one increment as subject and one
as object). -/
theorem c5_accumulator_line (l : String) (dt : DatasetType) (s : Stats)
    (hnb : pyTrim l ≠ "") :
    ((line_tokens l).length < 3 → process_line l dt s = s) ∧
    (3 ≤ (line_tokens l).length →
      (process_line l dt s).triples = s.triples + 1 ∧
      (∀ k, (process_line l dt s).subjects k
          = (s.subjects k || decide (k = (line_tokens l).getD 0 ""))) ∧
      (∀ k, (process_line l dt s).relations k
          = (s.relations k || decide (k = (line_tokens l).getD 1 ""))) ∧
      (∀ k, (process_line l dt s).objects k
          = (s.objects k || decide (k = (line_tokens l).getD 2 ""))) ∧
      (∀ k, (process_line l dt s).subject_counter k
          = s.subject_counter k
            + (if k = (line_tokens l).getD 0 "" then 1 else 0)) ∧
      (∀ k, (process_line l dt s).relation_counter k
          = s.relation_counter k
            + (if k = (line_tokens l).getD 1 "" then 1 else 0)) ∧
      (∀ k, (process_line l dt s).object_counter k
          = s.object_counter k
            + (if k = (line_tokens l).getD 2 "" then 1 else 0)) ∧
      (∀ k, (process_line l dt s).entity_counter k
          = s.entity_counter k
            + (if k = (line_tokens l).getD 0 "" then 1 else 0)
            + (if k = (line_tokens l).getD 2 "" then 1 else 0))) := by
  constructor
  · exact fun hlt => process_line_skip_short l dt s hlt
  · intro hge
    have h3 : ¬ (line_tokens l).length < 3 := by omega
    obtain ⟨g1, g2, g3, g4, g5, g6, g7, g8⟩ := process_line_fields l dt s hnb h3
    refine ⟨g1, fun k => ?_, fun k => ?_, fun k => ?_, fun k => ?_, fun k => ?_,
      fun k => ?_, fun k => ?_⟩
    · rw [g2]
      exact setAdd_apply _ _ _
    · rw [g4]
      exact setAdd_apply _ _ _
    · rw [g3]
      exact setAdd_apply _ _ _
    · rw [g5]
      exact bump_apply _ _ _
    · rw [g7]
      exact bump_apply _ _ _
    · rw [g6]
      exact bump_apply _ _ _
    · rw [g8]
      simp only [bump_apply]

/-- C5 witness: the theorem applied to the 3-column line A r B. -/
theorem c5_witness :
    pyTrim "A\tr\tB" ≠ "" ∧
    3 ≤ (line_tokens "A\tr\tB").length ∧
    (process_line "A\tr\tB" .generic init_stats).triples = init_stats.triples + 1 ∧
    (process_line "A\tr\tB" .generic init_stats).subjects "A"
      = (init_stats.subjects "A"
          || decide ("A" = (line_tokens "A\tr\tB").getD 0 "")) := by
  have hnb : pyTrim "A\tr\tB" ≠ "" := by decide
  have hge : 3 ≤ (line_tokens "A\tr\tB").length := by decide
  obtain ⟨t1, t2, -, -, -, -, -, -⟩ :=
    (c5_accumulator_line "A\tr\tB" .generic init_stats hnb).2 hge
  exact ⟨hnb, hge, t1, t2 "A"⟩

/-- C6: an EventCalendar (icews) line with at least 4 columns whose
4th column fails to parse as a YYYY-MM-DD date still increments
tripleCount and all subject/object/relation counts, leaves yearFreq,
minDate and maxDate unchanged, raises no error (the loop body is a
total function), and processing continues with the next line. -/
theorem c6_icews_invalid_date (l : String) (s : Stats)
    (h4 : 4 ≤ (line_tokens l).length)
    (hbad : strptimeYMD ((line_tokens l).getD 3 "") = none) :
    (process_line l .icews s).triples = s.triples + 1 ∧
    (∀ k, (process_line l .icews s).subject_counter k
        = s.subject_counter k + (if k = (line_tokens l).getD 0 "" then 1 else 0)) ∧
    (∀ k, (process_line l .icews s).relation_counter k
        = s.relation_counter k + (if k = (line_tokens l).getD 1 "" then 1 else 0)) ∧
    (∀ k, (process_line l .icews s).object_counter k
        = s.object_counter k + (if k = (line_tokens l).getD 2 "" then 1 else 0)) ∧
    (process_line l .icews s).year_counter = s.year_counter ∧
    (process_line l .icews s).min_date = s.min_date ∧
    (process_line l .icews s).max_date = s.max_date ∧
    (∀ rest, process_lines_from s (l :: rest) .icews
        = process_lines_from (process_line l .icews s) rest .icews) := by
  have hnb : pyTrim l ≠ "" := by
    intro he
    have h1 : (line_tokens l).length = 1 := by
      simp only [line_tokens, he]
      decide
    omega
  have h3 : ¬ (line_tokens l).length < 3 := by omega
  refine ⟨?_, fun k => ?_, fun k => ?_, fun k => ?_, ?_, ?_, ?_, fun rest => rfl⟩ <;>
    rw [process_line_eq l .icews s hnb h3] <;>
    simp only [parse_temporal_tokens, if_pos h4, hbad] <;>
    first
    | rfl
    | exact bump_apply _ _ _

/-- C6 witness: the theorem applied to the line A r B 2010-13-01,
whose month field 13 makes the date invalid. -/
theorem c6_witness :
    4 ≤ (line_tokens "A\tr\tB\t2010-13-01").length ∧
    strptimeYMD ((line_tokens "A\tr\tB\t2010-13-01").getD 3 "") = none ∧
    (process_line "A\tr\tB\t2010-13-01" .icews init_stats).triples
      = init_stats.triples + 1 ∧
    (process_line "A\tr\tB\t2010-13-01" .icews init_stats).year_counter
      = init_stats.year_counter ∧
    (process_line "A\tr\tB\t2010-13-01" .icews init_stats).min_date
      = init_stats.min_date := by
  have h4 : 4 ≤ (line_tokens "A\tr\tB\t2010-13-01").length := by decide
  have hbad : strptimeYMD ((line_tokens "A\tr\tB\t2010-13-01").getD 3 "") = none := by
    decide
  obtain ⟨t1, -, -, -, y1, d1, -, -⟩ :=
    c6_icews_invalid_date "A\tr\tB\t2010-13-01" init_stats h4 hbad
  exact ⟨h4, hbad, t1, y1, d1⟩

/-! ### Claim C7 -/

/-- C7: every Stats value produced by accumulating a file satisfies
entityFreq[e] = subjectFreq[e] + objectFreq[e] for every entity e, and
merging two Stats values that each satisfy the invariant yields a
value that satisfies it. -/
theorem c7_entity_invariant :
    (∀ (lines : List String) (dt : DatasetType),
      entity_invariant (process_file lines dt)) ∧
    (∀ A B : Stats, entity_invariant A → entity_invariant B →
      entity_invariant (merge_stats A B)) :=
  ⟨fun lines dt => process_lines_from_entity lines dt init_stats (fun _ => rfl),
   merge_stats_entity⟩

/-- C7 witness: the invariant for the merge of two concretely
accumulated files, with both hypotheses discharged by the theorem's
own accumulation part. -/
theorem c7_witness : entity_invariant (merge_stats sampleA sampleB) :=
  c7_entity_invariant.2 sampleA sampleB
    (c7_entity_invariant.1 ["A\tr\tB\t2010-05-01"] .icews)
    (c7_entity_invariant.1 ["C\ts\tD\t2001-01-02"] .icews)

/-! ### Claim C8 -/

/-- C8: for every frequency mapping (given as its entry list in
first-insertion order) and every topN, the ranking summarize applies
returns exactly min(topN, number of keys) entries, in weakly
descending frequency order, and stably: for every frequency value the
entries carrying it appear in exactly their first-insertion order
(stated as a filter identity on the full sorted list, of which the
ranking is the prefix); the spec's example {a:5, b:5, c:1} with topN 2
returns exactly the two frequency-5 keys in insertion order. -/
theorem c8_most_common_ranking :
    (∀ (c : List (String × Nat)) (n : Nat),
      (most_common c n).length = min n c.length) ∧
    (∀ (c : List (String × Nat)) (n : Nat),
      List.Pairwise (fun a b : String × Nat => b.2 ≤ a.2) (most_common c n)) ∧
    (∀ (c : List (String × Nat)) (k : Nat),
      (sortCountDesc c).filter (fun e => e.2 == k) = c.filter (fun e => e.2 == k)) ∧
    most_common [("a", 5), ("b", 5), ("c", 1)] 2 = [("a", 5), ("b", 5)] := by
  refine ⟨fun c n => ?_, fun c n => ?_, filter_sortCountDesc, by decide⟩
  · unfold most_common
    rw [List.length_take, length_sortCountDesc]
  · unfold most_common
    exact List.Pairwise.sublist (List.take_sublist n _) (pairwise_sortCountDesc c)

/-! ### Claim C9 -/

/-- C9 (amended): an existing base directory that is empty, or a
name filter matching no subdirectory, causes the fatal SystemExit
"No dataset folders found" before any dataset file is read (the
result is the same error for every file oracle, so no file content is
consulted and no partial output is produced); a non-existent base
directory instead fails fatally with the FileNotFoundError raised by
os.listdir, likewise before any file is read. -/
theorem c9_no_datasets :
    (∀ (base_dir : String) (inc : Option (List String))
        (files : String → List (String × List String)),
      analyze base_dir none inc files = .error (.fileNotFound base_dir)) ∧
    (∀ (base_dir : String) (entries : List (String × Bool))
        (inc : Option (List String))
        (files : String → List (String × List String)),
      discover_datasets entries inc = [] →
      analyze base_dir (some entries) inc files
        = .error (.systemExit ("No dataset folders found under " ++ base_dir ++ "."))) ∧
    (∀ inc : Option (List String), discover_datasets [] inc = []) := by
  refine ⟨fun _ _ _ => rfl, fun bd entries inc files hempty => ?_, fun inc => ?_⟩
  · simp [analyze, hempty]
  · cases inc with
    | none => rfl
    | some l =>
      cases l with
      | nil => rfl
      | cons a as => rfl

/-- C9 counterexample: for a non-existent base directory the run does
fail before reading anything, but with the file-not-found error of
os.listdir, not the "no datasets found" SystemExit the claim
names. -/
theorem c9_counterexample :
    analyze "TemporalKGs" none none (fun _ => [])
      = .error (.fileNotFound "TemporalKGs") ∧
    RunError.fileNotFound "TemporalKGs"
      ≠ RunError.systemExit "No dataset folders found under TemporalKGs." := by
  exact ⟨rfl, by decide⟩

/-- C9 witness: a base directory holding one dataset folder filtered
away by a non-matching name filter, with an arbitrary file oracle. -/
theorem c9_witness :
    discover_datasets [("ICEWS14", true)] (some ["yago15k"]) = [] ∧
    analyze "TemporalKGs" (some [("ICEWS14", true)]) (some ["yago15k"]) (fun _ => [])
      = .error (.systemExit "No dataset folders found under TemporalKGs.") := by
  have hd : discover_datasets [("ICEWS14", true)] (some ["yago15k"]) = [] := by decide
  exact ⟨hd, c9_no_datasets.2.1 "TemporalKGs" _ _ _ hd⟩

/-! ### Claim C10 -/

/-- C10: the EventCalendar (icews) branch of the extractor never
touches temporalRecordCount or markerFreq, even when the date parses;
consequently a Stats value accumulated from any EventCalendar file has
temporalRecordCount 0 and an empty markerFreq. -/
theorem c10_icews_no_temporal_records :
    (∀ (tokens : List String) (s : Stats),
      (parse_temporal_tokens tokens .icews s).temporal_records
        = s.temporal_records ∧
      (parse_temporal_tokens tokens .icews s).temporal_marker_counter
        = s.temporal_marker_counter) ∧
    (∀ lines : List String,
      (process_file lines .icews).temporal_records = 0 ∧
      ∀ m, (process_file lines .icews).temporal_marker_counter m = 0) := by
  refine ⟨parse_icews_frame, fun lines => ⟨?_, fun m => ?_⟩⟩
  · exact (process_lines_from_icews_temporal lines init_stats).1
  · show (process_lines_from init_stats lines .icews).temporal_marker_counter m = 0
    rw [(process_lines_from_icews_temporal lines init_stats).2]
    rfl
